import Mathlib

/-!
Verification of the coio coroutine scheduler core (src/src/scheduler.rs): the
join-handle channel protocol, the spawn trampoline and panic capture, the
proc_wait starving protocol, and the setup and shutdown phases of
Scheduler::run. Rust usize counters are embedded as Nat; fallible operations
return explicit outcome values.
-/

namespace Coio

/-- Outcome of running a user closure: a normal return carrying the value, or a
panic carrying the payload. -/
inductive Outcome (T P : Type) where
  | normal (v : T)
  | panicked (p : P)

/-- Modelled from the spec: the crate's panic boundary (called as try in
spawn_opts line 145; its definition is not under src). Spec 4.5: the trampoline
runs the user closure inside a panic boundary; on normal return the outcome is
Ok(value), on panic it is Err(payload). -/
def tryCall {T P : Type} : Outcome T P → Except P T
  | .normal v => .ok v
  | .panicked p => .error p

/-- Modelled from the spec: the single-receiver channel of the crate's
sync::mpsc module (not under src). Spec 3 and 4.5: pending messages are
delivered in order; the receiver observes a closed channel once the sender is
dropped and no message is pending. -/
structure Channel (α : Type) where
  pending : List α
  senderAlive : Bool

/-- A fresh channel: no pending message, sender alive. -/
def Channel.new (α : Type) : Channel α := ⟨[], true⟩

/-- Sending appends the message; a send with the receiver gone fails and leaves
the channel unchanged. The boolean reports success. -/
def Channel.send {α : Type} (ch : Channel α) (a : α) (receiverAlive : Bool) :
    Channel α × Bool :=
  if receiverAlive then (⟨ch.pending ++ [a], ch.senderAlive⟩, true) else (ch, false)

/-- Dropping the sender endpoint of a channel. -/
def Channel.dropSender {α : Type} (ch : Channel α) : Channel α :=
  ⟨ch.pending, false⟩

/-- Result of one recv call: a delivered message, the closed-channel failure,
or a recv that blocks awaiting a live sender. -/
inductive RecvResult (α : Type) where
  | received (a : α)
  | closed
  | wouldBlock

/-- Blocking recv: take the oldest pending message; with no pending message the
call fails if the sender is gone, and blocks otherwise. -/
def Channel.recv {α : Type} (ch : Channel α) : RecvResult α × Channel α :=
  match ch.pending, ch.senderAlive with
  | a :: rest, s => (.received a, ⟨rest, s⟩)
  | [], true => (.wouldBlock, ⟨[], true⟩)
  | [], false => (.closed, ⟨[], false⟩)

/-- Observable result of one JoinHandle::join call. -/
inductive JoinOutcome (T P : Type) where
  | returned (r : Except P T)
  | fatal (diag : String)
  | blocked

/-- JoinHandle::join (scheduler.rs lines 46-48): join receives one message from
the result channel and dies via expect, with the diagnostic string, when the
recv fails. join takes the handle by shared reference, so the channel state
after the call is returned alongside the outcome. -/
def JoinHandle.join {T P : Type} (ch : Channel (Except P T)) :
    JoinOutcome T P × Channel (Except P T) :=
  match ch.recv with
  | (.received r, ch') => (.returned r, ch')
  | (.closed, ch') => (.fatal "Failed to receive from the channel", ch')
  | (.wouldBlock, ch') => (.blocked, ch')

/-- The spawn trampoline (scheduler.rs lines 144-149): run the closure under
the panic boundary, send the outcome on the join channel ignoring send
failure, then drop the sender on exit. -/
def trampoline {T P : Type} (b : Outcome T P) (ch : Channel (Except P T))
    (receiverAlive : Bool) : Channel (Except P T) :=
  ((ch.send (tryCall b) receiverAlive).1).dropSender

/-- The join channel of a spawned coroutine as the trampoline leaves it: a
fresh channel through one trampoline run with the receiver alive. -/
def finishedChannel {T P : Type} (b : Outcome T P) : Channel (Except P T) :=
  trampoline b (Channel.new (Except P T)) true

/-- Scheduler::proc_wait (scheduler.rs lines 98-107), one call as observed at
the starving lock. The counter is decremented under the lock; when the new
value is nonzero the caller waits on the condvar (first component true, second
component the counter value left behind while waiting); when the new value is
zero the wait is skipped and the counter is incremented at once (first
component false, second component the counter value on return). -/
def proc_wait (counter : Nat) : Bool × Nat :=
  let g := counter - 1
  if g ≠ 0 then (true, g) else (false, g + 1)

/-- The tail of proc_wait after cond.wait hands the lock back at counter value
w: increment and return. -/
def proc_wait_resume (w : Nat) : Nat := w + 1

/-- Observable events of the scheduler, in program order. -/
inductive Event where
  | pushCoro (cid : Nat)
  | notifyOne
  | notifyAll
  | setCounter (v : Nat)
  | sendNewNeighbor (target : Nat) (tid : Nat)
  | logError (target : Nat)
  | recvMainResult
  | sendShutdown (w : Nat) (ok : Bool)
  | joinWorker (w : Nat)
deriving DecidableEq

/-- Whether the event is a Shutdown inbox send attempt. -/
def Event.isShutdownSend : Event → Bool
  | .sendShutdown _ _ => true
  | _ => false

/-- Whether the event is an error-level log. -/
def Event.isLogError : Event → Bool
  | .logError _ => true
  | _ => false

/-- Whether the event is an OS-thread join. -/
def Event.isJoin : Event → Bool
  | .joinWorker _ => true
  | _ => false

/-- Whether the event belongs to run's shutdown phase: the main-result
receive, a Shutdown send, the notify_all, or a worker-thread join. -/
def Event.isShutdownPhase : Event → Bool
  | .recvMainResult => true
  | .sendShutdown _ _ => true
  | .notifyAll => true
  | .joinWorker _ => true
  | _ => false

/-- Options (spec 6): stack size in bytes (default 128 KiB) and an optional
name for diagnostics. -/
structure Options where
  stackSize : Nat
  name : Option String

/-- Default options: 128 KiB stack, no name. -/
def Options.default : Options := ⟨128 * 1024, none⟩

/-- The state spawn_opts touches: the scheduler's work counter, the current
processor's local run queue (coroutine ids, newest last) and a supply of fresh
coroutine ids. -/
structure SpawnState where
  workCounts : Nat
  localQueue : List Nat
  nextCoroId : Nat

/-- Scheduler::spawn_opts (scheduler.rs lines 137-157): increment the work
counter; create a fresh channel and wrap the closure in the trampoline; hand
the wrapped coroutine to the current processor, which pushes it onto its local
run queue (Processor::spawn_opts is not under src; spec 4.4 and 4.1: the new
coroutine is pushed onto the current processor's queue); then take the
starving lock and notify one parked processor. Returns the new state, the
join-handle channel, and the event trace in program order. -/
def spawn_opts {T P : Type} (s : SpawnState) (_opts : Options) :
    SpawnState × Channel (Except P T) × List Event :=
  let s1 : SpawnState := ⟨s.workCounts + 1, s.localQueue, s.nextCoroId⟩
  let cid := s1.nextCoroId
  let ch : Channel (Except P T) := Channel.new (Except P T)
  let s2 : SpawnState := ⟨s1.workCounts, s1.localQueue ++ [cid], cid + 1⟩
  (s2, ch, [Event.pushCoro cid, Event.notifyOne])

/-- Scheduler::spawn (scheduler.rs lines 129-134): spawn_opts with the default
options. -/
def spawn {T P : Type} (s : SpawnState) :
    SpawnState × Channel (Except P T) × List Event :=
  spawn_opts s Options.default

/-- The scheduler's processor table as run builds it: the registered worker
ids in order; for each worker id, its inbox (the NewNeighbor worker ids it was
sent, in arrival order) and the stealer list it was seeded with at startup.
Worker ids stand for the (sender, stealer) handle pairs of the source. -/
structure SetupState where
  handles : List Nat
  inboxOf : Nat → List Nat
  seedsOf : Nat → List Nat

/-- The table after run's first phase (scheduler.rs lines 167-177): worker 0
registered via Processor::run_main, with an empty inbox and no seed
stealers. -/
def initialSetup : SetupState := ⟨[0], fun _ => [], fun _ => []⟩

/-- One iteration of run's startup loop (scheduler.rs lines 182-198) for
worker tid: the newcomer is seeded with the stealers of all currently
registered workers, NewNeighbor(tid) is sent to every registered worker's
inbox, and the newcomer is registered. -/
def startWorker (st : SetupState) (tid : Nat) : SetupState :=
  ⟨st.handles ++ [tid],
   fun j => if j ∈ st.handles then st.inboxOf j ++ [tid] else st.inboxOf j,
   fun j => if j = tid then st.handles else st.seedsOf j⟩

/-- The processor table after the startup iterations for workers 1..i. -/
def setupAfter : Nat → SetupState
  | 0 => initialSetup
  | i + 1 => startWorker (setupAfter i) (i + 1)

/-- Modelled from the spec: Processor::run_with_neighbors (not under src)
starts worker tid's OS thread; by the spec's ordering invariant (spec 4.4,
run step 2) the worker's schedule loop begins only after run's startup
iteration for tid has completed, so the table it and its peers observe when
its loop starts is setupAfter tid. -/
def tableAtLoopStart (tid : Nat) : SetupState := setupAfter tid

/-- The NewNeighbor fan-out of one startup iteration (scheduler.rs lines
190-194): a send to each registered worker in order; a failed send is logged
at error level (the error macro at line 192). fails says which targets'
inboxes reject the send. -/
def newNeighborSends (targets : List Nat) (tid : Nat) (fails : Nat → Bool) :
    List Event :=
  match targets with
  | [] => []
  | j :: rest =>
      Event.sendNewNeighbor j tid ::
        ((if fails j then [Event.logError j] else []) ++
          newNeighborSends rest tid fails)

/-- The event trace of run's startup loop (scheduler.rs lines 182-198) for
workers 1..i, in program order: at the iteration for worker tid, a
NewNeighbor(tid) send to every worker registered in the table at that point,
with a failed send logged at error level. fails tid j says whether the send
of NewNeighbor(tid) to worker j fails. -/
def startupEvents (fails : Nat → Nat → Bool) : Nat → List Event
  | 0 => []
  | i + 1 =>
      startupEvents fails i ++
        newNeighborSends (setupAfter i).handles (i + 1) (fails (i + 1))

/-- The Shutdown broadcast loop of run (scheduler.rs lines 201-203): a
best-effort send to each registered worker in order; the send result is
discarded (line 202 binds it to an underscore), so a failure produces no
further event beyond the failed send itself. -/
def shutdownLoop : List Bool → Nat → List Event
  | [], _ => []
  | ok :: rest, i => Event.sendShutdown i ok :: shutdownLoop rest (i + 1)

/-- The worker OS-thread join loop of run (scheduler.rs lines 209-211). -/
def joinLoop : List Bool → Nat → List Event
  | [], _ => []
  | _ :: rest, i => Event.joinWorker i :: joinLoop rest (i + 1)

/-- Scheduler::run, lines 200-213: block on the main coroutine's join channel;
on receipt broadcast Shutdown to every registered worker, take the starving
lock and notify all, join every worker OS thread, and return the main result
unchanged. mainRet is the value the main join channel delivers
(Processor::run_main is not under src); sendOk gives, per registered worker,
whether the Shutdown inbox send succeeds. -/
def runShutdownPhase {R P : Type} (mainRet : Except P R) (sendOk : List Bool) :
    List Event × Except P R :=
  (Event.recvMainResult ::
     (shutdownLoop sendOk 0 ++ Event.notifyAll :: joinLoop sendOk 0),
   mainRet)

/-- The scheduler fields Scheduler::run can see: the work counter and the
configured worker count. -/
structure SchedState where
  workCounts : Nat
  expectedWorkerCount : Nat

/-- Scheduler::run (scheduler.rs lines 160-214) end to end: set the starving
counter to 1, start worker 0 obtaining the main join handle, set the counter
to the expected worker count, run the startup loop for workers 1..N with its
NewNeighbor fan-out events (lines 190-194, including error logs for failed
sends, per fails), then block on the main handle and run the shutdown phase.
The work counter field of the scheduler is never read. -/
def runModel {R P : Type} (s : SchedState) (mainRet : Except P R)
    (sendOk : List Bool) (fails : Nat → Nat → Bool) :
    List Event × Except P R × SetupState :=
  let n := s.expectedWorkerCount
  let tail := runShutdownPhase mainRet sendOk
  (Event.setCounter 1 :: Event.setCounter n ::
      (startupEvents fails (n - 1) ++ tail.1),
   tail.2, setupAfter (n - 1))

/-- A configuration of the starving protocol: the counter guarded by the
starving lock, and the numbers of worker threads currently awake in their
schedule loop, waiting on the condvar, and not yet started. -/
structure StarvConfig where
  counter : Nat
  awake : Nat
  waiting : Nat
  unstarted : Nat
deriving DecidableEq

/-- Atomic steps of the starving protocol. parkWait and parkSkip are the two
paths through proc_wait (scheduler.rs lines 98-107): an awake worker
decrements under the lock; when the new value is nonzero it releases the lock
into cond.wait, and when the new value is zero (so the counter was 1) it
increments back at once and stays awake. wake is a waiter resuming after a
notification: it reacquires the lock, increments and returns to its loop.
start is a configured worker's OS thread beginning its schedule loop. -/
inductive StarvStep : StarvConfig → StarvConfig → Prop where
  | parkWait (c a w u : Nat) : c - 1 ≠ 0 →
      StarvStep ⟨c, a + 1, w, u⟩ ⟨c - 1, a, w + 1, u⟩
  | parkSkip (a w u : Nat) :
      StarvStep ⟨1, a + 1, w, u⟩ ⟨1, a + 1, w, u⟩
  | wake (c a w u : Nat) :
      StarvStep ⟨c, a, w + 1, u⟩ ⟨c + 1, a + 1, w, u⟩
  | start (c a w u : Nat) :
      StarvStep ⟨c, a, w, u + 1⟩ ⟨c, a + 1, w, u⟩

/-- Configurations reachable in run's first phase: line 167 has set the
counter to 1 and worker 0 is about to start (Processor::run_main); the
assignment at line 179 has not happened yet. -/
inductive Phase1Reach : StarvConfig → Prop where
  | init : Phase1Reach ⟨1, 0, 0, 1⟩
  | step (s s' : StarvConfig) : Phase1Reach s → StarvStep s s' → Phase1Reach s'

/-- Configurations reachable once line 179 has set the counter to the expected
worker count N, adding the N - 1 workers of the startup loop as unstarted. -/
inductive StarvReach (N : Nat) : StarvConfig → Prop where
  | setN (s : StarvConfig) : Phase1Reach s →
      StarvReach N ⟨N, s.awake, s.waiting, s.unstarted + (N - 1)⟩
  | step (s s' : StarvConfig) : StarvReach N s → StarvStep s s' → StarvReach N s'

/-! Theorems. -/

/-- C1 counterexample. The claim says that when the value of the starving
counter after the decrement is zero, the calling processor still parks. At
counter 1 the decrement yields zero, yet proc_wait does not wait on the
condvar: it returns at once with the counter restored to 1. -/
theorem proc_wait_no_park_at_zero_cex :
    (1 : Nat) - 1 = 0 ∧ proc_wait 1 = (false, 1) := by
  decide

/-- C1 (amended). proc_wait decrements the counter under the starving lock;
it parks exactly when the new value is nonzero, leaving the decremented value
behind while waiting, and on wake the resume path increments; when the new
value is zero it skips the wait and returns at once with the counter
unchanged. -/
theorem proc_wait_amended (c : Nat) (h : 1 ≤ c) :
    ((proc_wait c).1 = true ↔ c - 1 ≠ 0)
    ∧ ((proc_wait c).1 = true →
        (proc_wait c).2 = c - 1 ∧ proc_wait_resume ((proc_wait c).2) = c)
    ∧ ((proc_wait c).1 = false → proc_wait c = (false, c)) := by
  unfold proc_wait proc_wait_resume
  by_cases hz : c - 1 = 0
  · simp [hz]
    omega
  · simp [hz]
    omega

/-- C1 amended witness at counter 2: the call parks. -/
theorem proc_wait_amended_witness : (proc_wait 2).1 = true :=
  ((proc_wait_amended 2 (by decide)).1.mpr (by decide))

/-- C4. For a spawned coroutine whose closure returns v normally, the
trampoline leaves exactly one message Ok(v) on the join channel and join
yields it, after which nothing is pending; for a closure that panics with
payload p, the single message is Err(p); and a trampoline whose send fails
(receiver dropped) still completes, leaving the pending messages unchanged
and the sender dropped. -/
theorem join_outcome_exactly_once {T P : Type} (v : T) (p : P) :
    ((finishedChannel (Outcome.normal v : Outcome T P)).pending = [Except.ok v]
      ∧ (JoinHandle.join (finishedChannel (Outcome.normal v : Outcome T P))).1
          = JoinOutcome.returned (Except.ok v)
      ∧ (JoinHandle.join
            (finishedChannel (Outcome.normal v : Outcome T P))).2.pending = [])
    ∧ ((finishedChannel (Outcome.panicked p : Outcome T P)).pending
          = [Except.error p]
      ∧ (JoinHandle.join (finishedChannel (Outcome.panicked p : Outcome T P))).1
          = JoinOutcome.returned (Except.error p)
      ∧ (JoinHandle.join
            (finishedChannel (Outcome.panicked p : Outcome T P))).2.pending = [])
    ∧ (∀ b : Outcome T P, ∀ al : List (Except P T),
        (trampoline b ⟨al, true⟩ false).pending = al
        ∧ (trampoline b ⟨al, true⟩ false).senderAlive = false) := by
  refine ⟨⟨rfl, rfl, rfl⟩, ⟨rfl, rfl, rfl⟩, fun b al => ⟨rfl, rfl⟩⟩

/-- C5. JoinHandle::join receives exactly one message: with a pending message
it returns that message and consumes only it; with the channel closed (no
pending message, sender gone) the recv failure is fatal, reported through the
expect diagnostic rather than returned as an ordinary result value. -/
theorem join_recv_expect_spec {T P : Type} (ch : Channel (Except P T)) :
    (∀ r : Except P T, ∀ rest : List (Except P T), ch.pending = r :: rest →
        JoinHandle.join ch = (JoinOutcome.returned r, ⟨rest, ch.senderAlive⟩))
    ∧ (ch.pending = [] → ch.senderAlive = false →
        JoinHandle.join ch
            = (JoinOutcome.fatal "Failed to receive from the channel", ch)
          ∧ ∀ r : Except P T,
              (JoinHandle.join ch).1 ≠ JoinOutcome.returned r) := by
  obtain ⟨pend, alive⟩ := ch
  constructor
  · intro r rest hp
    cases hp
    rfl
  · intro hp ha
    cases hp
    cases ha
    exact ⟨rfl, fun r => by simp [JoinHandle.join, Channel.recv]⟩

/-- C5 witness: joining on a closed empty channel is the fatal expect
failure. -/
theorem join_recv_expect_spec_witness :
    JoinHandle.join (⟨[], false⟩ : Channel (Except Nat Nat))
      = (JoinOutcome.fatal "Failed to receive from the channel", ⟨[], false⟩) :=
  ((join_recv_expect_spec ⟨[], false⟩).2 rfl rfl).1

/-- C10. join takes the handle by shared reference, so it can be called again
on the same handle; the first call after the trampoline ran returns the
coroutine's outcome, and because the trampoline sent at most one message and
dropped the sender, the second call finds the channel closed and dies with
the expect diagnostic instead of returning a value. -/
theorem join_second_call_fatal {T P : Type} (b : Outcome T P) :
    (JoinHandle.join (finishedChannel b)).1 = JoinOutcome.returned (tryCall b)
    ∧ (JoinHandle.join (JoinHandle.join (finishedChannel b)).2).1
        = JoinOutcome.fatal "Failed to receive from the channel"
    ∧ ∀ r : Except P T,
        (JoinHandle.join (JoinHandle.join (finishedChannel b)).2).1
          ≠ JoinOutcome.returned r := by
  refine ⟨rfl, rfl, fun r => ?_⟩
  simp [finishedChannel, trampoline, Channel.send, Channel.dropSender,
    Channel.new, JoinHandle.join, Channel.recv]

/-- Elementwise description of the Shutdown broadcast loop: position k holds
the send to worker i + k with that worker's send result. -/
theorem shutdownLoop_getD (l : List Bool) (i k : Nat) (hk : k < l.length) :
    (shutdownLoop l i).getD k Event.notifyOne
      = Event.sendShutdown (i + k) (l.getD k true) := by
  induction l generalizing i k with
  | nil => exact absurd hk (by simp)
  | cons ok rest ih =>
      cases k with
      | zero => rfl
      | succ k =>
          have hk' : k < rest.length := by simpa using hk
          have h2 := ih (i + 1) k hk'
          rw [show i + (k + 1) = (i + 1) + k by omega]
          simpa [shutdownLoop] using h2

/-- The Shutdown broadcast loop attempts one send per registered worker. -/
theorem shutdownLoop_length (l : List Bool) (i : Nat) :
    (shutdownLoop l i).length = l.length := by
  induction l generalizing i with
  | nil => rfl
  | cons ok rest ih => simp [shutdownLoop, ih]

/-- Elementwise description of the thread-join loop. -/
theorem joinLoop_getD (l : List Bool) (i k : Nat) (hk : k < l.length) :
    (joinLoop l i).getD k Event.notifyOne = Event.joinWorker (i + k) := by
  induction l generalizing i k with
  | nil => exact absurd hk (by simp)
  | cons ok rest ih =>
      cases k with
      | zero => rfl
      | succ k =>
          have hk' : k < rest.length := by simpa using hk
          have h2 := ih (i + 1) k hk'
          rw [show i + (k + 1) = (i + 1) + k by omega]
          simpa [joinLoop] using h2

/-- The thread-join loop joins one OS thread per registered worker. -/
theorem joinLoop_length (l : List Bool) (i : Nat) :
    (joinLoop l i).length = l.length := by
  induction l generalizing i with
  | nil => rfl
  | cons ok rest ih => simp [joinLoop, ih]

/-- The Shutdown broadcast loop logs nothing, send failures included. -/
theorem shutdownLoop_no_log (l : List Bool) (i : Nat) :
    (shutdownLoop l i).filter Event.isLogError = [] := by
  induction l generalizing i with
  | nil => rfl
  | cons ok rest ih => simp [shutdownLoop, List.filter_cons, Event.isLogError, ih]

/-- The thread-join loop logs nothing. -/
theorem joinLoop_no_log (l : List Bool) (i : Nat) :
    (joinLoop l i).filter Event.isLogError = [] := by
  induction l generalizing i with
  | nil => rfl
  | cons ok rest ih => simp [joinLoop, List.filter_cons, Event.isLogError, ih]

/-- Counting sends in the Shutdown broadcast loop. -/
theorem shutdownLoop_countP_send (l : List Bool) (i : Nat) :
    (shutdownLoop l i).countP Event.isShutdownSend = l.length := by
  induction l generalizing i with
  | nil => rfl
  | cons ok rest ih =>
      simp [shutdownLoop, List.countP_cons, Event.isShutdownSend, ih]

/-- The Shutdown broadcast loop joins no thread. -/
theorem shutdownLoop_countP_join (l : List Bool) (i : Nat) :
    (shutdownLoop l i).countP Event.isJoin = 0 := by
  induction l generalizing i with
  | nil => rfl
  | cons ok rest ih =>
      simp [shutdownLoop, List.countP_cons, Event.isJoin, ih]

/-- The thread-join loop sends no Shutdown. -/
theorem joinLoop_countP_send (l : List Bool) (i : Nat) :
    (joinLoop l i).countP Event.isShutdownSend = 0 := by
  induction l generalizing i with
  | nil => rfl
  | cons ok rest ih =>
      simp [joinLoop, List.countP_cons, Event.isShutdownSend, ih]

/-- Counting joins in the thread-join loop. -/
theorem joinLoop_countP_join (l : List Bool) (i : Nat) :
    (joinLoop l i).countP Event.isJoin = l.length := by
  induction l generalizing i with
  | nil => rfl
  | cons ok rest ih =>
      simp [joinLoop, List.countP_cons, Event.isJoin, ih]

/-- C2. Every spawn_opts call increments the work counter by one, returns a
fresh channel whose trampoline run sends exactly the closure's Ok or Err
outcome, pushes the new coroutine onto the current processor's queue, and
notifies one parked processor, with the push event strictly before the
notify; spawn is spawn_opts at the default options. -/
theorem spawn_opts_spec {T P : Type} (s : SpawnState) (opts : Options) :
    ((@spawn_opts T P s opts).1.workCounts = s.workCounts + 1)
    ∧ ((@spawn_opts T P s opts).1.localQueue = s.localQueue ++ [s.nextCoroId])
    ∧ ((@spawn_opts T P s opts).2.1 = Channel.new (Except P T))
    ∧ (∀ b : Outcome T P,
        (trampoline b (@spawn_opts T P s opts).2.1 true).pending = [tryCall b])
    ∧ ((@spawn_opts T P s opts).2.2
        = [Event.pushCoro s.nextCoroId, Event.notifyOne])
    ∧ (@spawn T P s = @spawn_opts T P s Options.default) :=
  ⟨rfl, rfl, rfl, fun _ => rfl, rfl, rfl⟩

/-- C3. After run receives the main coroutine's result, the trace is: the
receive, then one Shutdown send per registered worker in order (position k is
worker k), then notify_all on the starving condvar, then one OS-thread join
per worker in order, and the returned value is the main result itself, Ok or
Err as received. -/
theorem run_shutdown_order {R P : Type} (m : Except P R) (sendOk : List Bool) :
    ((runShutdownPhase m sendOk).2 = m)
    ∧ ((runShutdownPhase m sendOk).1
        = Event.recvMainResult ::
            (shutdownLoop sendOk 0 ++ Event.notifyAll :: joinLoop sendOk 0))
    ∧ ((shutdownLoop sendOk 0).length = sendOk.length)
    ∧ (∀ k, k < sendOk.length →
        (shutdownLoop sendOk 0).getD k Event.notifyOne
          = Event.sendShutdown k (sendOk.getD k true))
    ∧ ((joinLoop sendOk 0).length = sendOk.length)
    ∧ (∀ k, k < sendOk.length →
        (joinLoop sendOk 0).getD k Event.notifyOne = Event.joinWorker k) := by
  refine ⟨rfl, rfl, shutdownLoop_length sendOk 0, fun k hk => ?_,
    joinLoop_length sendOk 0, fun k hk => ?_⟩
  · simpa using shutdownLoop_getD sendOk 0 k hk
  · simpa using joinLoop_getD sendOk 0 k hk

/-- C3 witness at a two-worker run whose second Shutdown send fails. -/
theorem run_shutdown_order_witness :
    ((runShutdownPhase (Except.ok 5 : Except Nat Nat) [true, false]).2
        = Except.ok 5)
    ∧ (shutdownLoop [true, false] 0).getD 1 Event.notifyOne
        = Event.sendShutdown 1 false :=
  ⟨(run_shutdown_order (Except.ok 5 : Except Nat Nat) [true, false]).1,
   (run_shutdown_order (Except.ok 5 : Except Nat Nat) [true, false]).2.2.2.1 1
     (by decide)⟩

/-- The NewNeighbor fan-out produces only sends and error logs: no event of
run's shutdown phase, and not the main-result receive. -/
theorem newNeighborSends_not_shutdown (targets : List Nat) (tid : Nat)
    (fails : Nat → Bool) :
    ∀ e ∈ newNeighborSends targets tid fails, e.isShutdownPhase = false := by
  induction targets with
  | nil =>
      intro e he
      simp [newNeighborSends] at he
  | cons j rest ih =>
      intro e he
      simp only [newNeighborSends, List.mem_cons, List.mem_append] at he
      rcases he with rfl | he | he
      · rfl
      · by_cases hf : fails j
        · rw [if_pos hf] at he
          simp only [List.mem_singleton] at he
          subst he
          rfl
        · rw [if_neg hf] at he
          simp at he
      · exact ih e he

/-- The whole startup loop produces no event of run's shutdown phase. -/
theorem startupEvents_not_shutdown (fails : Nat → Nat → Bool) (i : Nat) :
    ∀ e ∈ startupEvents fails i, e.isShutdownPhase = false := by
  induction i with
  | zero =>
      intro e he
      simp [startupEvents] at he
  | succ i ih =>
      intro e he
      simp only [startupEvents, List.mem_append] at he
      rcases he with he | he
      · exact ih e he
      · exact newNeighborSends_not_shutdown _ _ _ e he

/-- C7. run returns the main coroutine's result exactly as received from the
main join channel; its trace is the two counter initializations and the
startup fan-out, followed by the shutdown phase whose first event is the
main-result receive — and nothing before that receive is a shutdown event
(no Shutdown send, no notify_all, no thread join); moreover the whole of
run's observable behaviour is unchanged under any value of the work counter:
run never reads it, so it cannot influence the decision to shut down. -/
theorem run_ignores_work_counter {R P : Type} (w w' n : Nat) (m : Except P R)
    (sendOk : List Bool) (fails : Nat → Nat → Bool) :
    (runModel ⟨w, n⟩ m sendOk fails = runModel ⟨w', n⟩ m sendOk fails)
    ∧ ((runModel ⟨w, n⟩ m sendOk fails).2.1 = m)
    ∧ ((runModel ⟨w, n⟩ m sendOk fails).1
        = Event.setCounter 1 :: Event.setCounter n ::
            (startupEvents fails (n - 1) ++ (runShutdownPhase m sendOk).1))
    ∧ (∀ e ∈ Event.setCounter 1 :: Event.setCounter n ::
          startupEvents fails (n - 1), e.isShutdownPhase = false)
    ∧ ((runShutdownPhase m sendOk).1.head? = some Event.recvMainResult) := by
  refine ⟨rfl, rfl, rfl, ?_, rfl⟩
  intro e he
  simp only [List.mem_cons] at he
  rcases he with rfl | rfl | he
  · rfl
  · rfl
  · exact startupEvents_not_shutdown fails (n - 1) e he

/-- C7 witness at a two-worker run: the first counter initialization is in
the pre-receive trace and is no shutdown event. -/
theorem run_ignores_work_counter_witness :
    Event.isShutdownPhase (Event.setCounter 1) = false :=
  (run_ignores_work_counter 3 7 2 (Except.ok 0 : Except Nat Nat) [true, true]
      (fun _ _ => false)).2.2.2.1 (Event.setCounter 1) (by decide)

/-- C9 counterexample. In a one-worker run whose Shutdown inbox send fails,
the trace records the failed send and contains no error-level log at all,
while a failed NewNeighbor send in the startup loop does produce one: the
claim that a Shutdown send failure is logged at error level is false of the
code, which discards the send result. -/
theorem shutdown_send_failure_not_logged_cex :
    ((runShutdownPhase (Except.ok 0 : Except Nat Nat) [false]).1.contains
        (Event.sendShutdown 0 false) = true)
    ∧ ((runShutdownPhase (Except.ok 0 : Except Nat Nat) [false]).1.filter
        Event.isLogError = [])
    ∧ ((newNeighborSends [0] 1 (fun _ => true)).contains (Event.logError 0)
        = true) := by
  refine ⟨by decide, by decide, by decide⟩

/-- C9 (amended). A failed Shutdown send during shutdown is silently ignored,
neither logged nor fatal: whatever the pattern of send failures, run still
attempts a Shutdown send for every registered worker, performs no error log,
joins every worker thread, and returns the main result normally. -/
theorem shutdown_send_failure_amended {R P : Type} (m : Except P R)
    (sendOk : List Bool) :
    ((runShutdownPhase m sendOk).1.filter Event.isLogError = [])
    ∧ ((runShutdownPhase m sendOk).1.countP Event.isShutdownSend
        = sendOk.length)
    ∧ ((runShutdownPhase m sendOk).1.countP Event.isJoin = sendOk.length)
    ∧ ((runShutdownPhase m sendOk).2 = m) := by
  refine ⟨?_, ?_, ?_, rfl⟩ <;>
    simp [runShutdownPhase, List.filter_append, List.countP_append,
      List.filter_cons, List.countP_cons, shutdownLoop_no_log, joinLoop_no_log,
      shutdownLoop_countP_send, joinLoop_countP_send, shutdownLoop_countP_join,
      joinLoop_countP_join, Event.isLogError, Event.isShutdownSend, Event.isJoin]

/-- In run's first phase exactly two configurations occur: worker 0 not yet
started, and worker 0 awake; the counter is 1 in both and nobody waits. -/
theorem phase1_cases (s : StarvConfig) (h : Phase1Reach s) :
    s = ⟨1, 0, 0, 1⟩ ∨ s = ⟨1, 1, 0, 0⟩ := by
  induction h with
  | init => exact Or.inl rfl
  | step t t' ht hstep ih =>
      rcases ih with h1 | h1 <;> subst h1 <;> cases hstep <;>
        first
        | exact Or.inl rfl
        | exact Or.inr rfl
        | omega

/-- Inductive invariant of the starving protocol after line 179: the counter
equals the number of awake workers plus the number whose thread has not
started yet, and awake, waiting and unstarted workers total N. -/
theorem starv_inv (N : Nat) (hN : 1 ≤ N) (s : StarvConfig)
    (h : StarvReach N s) :
    s.counter = s.awake + s.unstarted
      ∧ s.awake + s.waiting + s.unstarted = N := by
  induction h with
  | setN t ht =>
      rcases phase1_cases t ht with h1 | h1 <;> subst h1 <;> constructor <;>
        simp <;> omega
  | step t t' ht hstep ih =>
      cases hstep <;> simp at ih ⊢ <;> omega

/-- C6. The starving counter always stays within 0..N: run initializes it to
1 before worker 0 starts and to N before workers 1..N start, and under the
proc_wait decrement-wait-increment discipline every reachable configuration
of the protocol keeps the counter at most N (it is a Nat, hence at least
0). -/
theorem starving_counter_bounded (N : Nat) (hN : 1 ≤ N) :
    (∀ s, Phase1Reach s → s.counter ≤ N)
    ∧ (∀ s, StarvReach N s → s.counter ≤ N) := by
  constructor
  · intro s hs
    rcases phase1_cases s hs with h | h <;> subst h <;> simpa using hN
  · intro s hs
    have h2 := starv_inv N hN s hs
    omega

/-- C6 witness: the initial configuration of a one-worker run obeys the
bound. -/
theorem starving_counter_bounded_witness :
    StarvConfig.counter ⟨1, 0, 0, 1⟩ ≤ 1 :=
  (starving_counter_bounded 1 (by decide)).1 ⟨1, 0, 0, 1⟩ Phase1Reach.init

/-- After the startup iterations for workers 1..i the processor table holds
exactly workers 0..i, in order. -/
theorem setupAfter_handles (i : Nat) :
    (setupAfter i).handles = List.range (i + 1) := by
  induction i with
  | zero => rfl
  | succ i ih => simp [setupAfter, startWorker, ih, List.range_succ]

/-- C8. When run starts worker i (i in 1..N), the newcomer is seeded with the
stealers of all existing workers 0..i, and by the time worker i's schedule
loop begins (spec ordering: after run's startup iteration for i completes)
every worker j < i has received the NewNeighbor message carrying worker i's
stealer in its inbox. -/
theorem new_worker_neighbors_spec (i : Nat) (h1 : 1 ≤ i) :
    ((tableAtLoopStart i).seedsOf i = List.range i)
    ∧ (∀ j, j < i → i ∈ (tableAtLoopStart i).inboxOf j) := by
  obtain ⟨k, rfl⟩ : ∃ k, i = k + 1 := ⟨i - 1, by omega⟩
  constructor
  · show (startWorker (setupAfter k) (k + 1)).seedsOf (k + 1)
        = List.range (k + 1)
    simp [startWorker, setupAfter_handles]
  · intro j hj
    show (k + 1) ∈ (startWorker (setupAfter k) (k + 1)).inboxOf j
    have hmem : j ∈ (setupAfter k).handles := by
      rw [setupAfter_handles]
      simp only [List.mem_range]
      omega
    simp [startWorker, hmem]

/-- C8 witness: at worker 2's loop start, worker 2 was seeded with the
stealers of workers 0 and 1, and worker 0's inbox names worker 2. -/
theorem new_worker_neighbors_spec_witness :
    ((tableAtLoopStart 2).seedsOf 2 = List.range 2)
    ∧ (2 ∈ (tableAtLoopStart 2).inboxOf 0) :=
  ⟨(new_worker_neighbors_spec 2 (by decide)).1,
   (new_worker_neighbors_spec 2 (by decide)).2 0 (by decide)⟩

end Coio
